import Mathlib

/-!
Shallow embedding of `src/main.js` of arc-electron: the `Arc` application
controller (protocol URL handling, menu action routing, and the lifecycle
ready sequence), together with theorems about the claims of the spec.

JavaScript string primitives are modelled character-wise over `String.data`
(all inputs of interest are ASCII, where JS UTF-16 indexing and per-char
indexing agree).
-/

/-- JS `s.substr(n)`: the characters of `s` from index `n` on (empty when
`n` is past the end). -/
def jsSubstr (s : String) (n : Nat) : String := ⟨s.data.drop n⟩

/-- Accumulator-based worker for `jsSplit`. -/
def jsSplitAux (sep : Char) : List Char → List Char → List String
  | [], acc => [⟨acc.reverse⟩]
  | c :: rest, acc =>
    if c = sep then ⟨acc.reverse⟩ :: jsSplitAux sep rest []
    else jsSplitAux sep rest (c :: acc)

/-- JS `s.split(sep)` for a one-character separator: always returns at least
one element; `"".split('/') = [""]`. -/
def jsSplit (s : String) (sep : Char) : List String := jsSplitAux sep s.data []

/-- JS string coercion of a possibly-`undefined` value used in string
concatenation: `undefined` prints as `"undefined"`. -/
def jsStr : Option String → String
  | some s => s
  | none => "undefined"

/-- JS `s.indexOf(pre) === 0`: `s` begins with the characters of `pre`. -/
def jsStarts (s pre : String) : Bool := List.isPrefixOf pre.data s.data

/-- Worker for `jsContains`: does `sub` occur in `l`? -/
def listContainsAux (sub : List Char) : List Char → Bool
  | [] => sub.isEmpty
  | c :: rest => List.isPrefixOf sub (c :: rest) || listContainsAux sub rest

/-- JS `s.indexOf(sub) !== -1`: `sub` occurs somewhere in `s`. -/
def jsContains (s sub : String) : Bool := listContainsAux sub.data s.data

/-- Observable events of the `open-url` protocol handler registered by
`Arc._registerProtocols`. -/
inductive PEvent
  | logInfoUrl (url : String)
  | preventDefault
  | wmOpenPath (path : String)
deriving DecidableEq

/-- The `open-url` handler of `Arc._registerProtocols` (src/main.js lines
51-63): logs the url, calls `event.preventDefault()`, takes
`url.substr(11)`, splits on `/`, and on first segment `drive` calls
`this.wm.open('/request/drive/' + parts[1] + '/' + parts[2])`. -/
def openUrlHandler (url : String) : List PEvent :=
  [PEvent.logInfoUrl url, PEvent.preventDefault] ++
    (if (jsSplit (jsSubstr url 11) '/').headD "" = "drive" then
      [PEvent.wmOpenPath
        ("/request/drive/" ++ jsStr ((jsSplit (jsSubstr url 11) '/').get? 1) ++
          "/" ++ jsStr ((jsSplit (jsSubstr url 11) '/').get? 2))]
    else [])

/-- Observable effects of menu action routing (`Arc._menuHandler` and
`Arc._handleApplicationAction`). -/
inductive Effect
  | appQuit
  | send (channel payload : String)
  | wmOpenNew
  | helpWith (cmd : String)
  | openTaskManager
  | srvNew
  | srvOpen
  | srvFocus
deriving DecidableEq

/-- Modelled from the spec: the Content Search Service collaborator
(`./scripts/main/search-service`, not under src/). Per-window singleton
factory with instance methods `isOpened() / open() / focus()`: `open()`
marks the instance opened, `focus()` leaves its state unchanged. The model
keeps only the `opened` flag the router observes. -/
structure SearchSrv where
  opened : Bool
deriving DecidableEq

/-- The per-window state observed and updated by the router: the URL loaded
in the window (`win.webContents.getURL()`) and the window's registered
Content Search Service instance, if any (`ContentSearchService.getService`,
modelled from the spec as a per-window registry). -/
structure WinState where
  url : String
  srv : Option SearchSrv
deriving DecidableEq

/-- `Arc._handleApplicationAction` (src/main.js lines 138-191): the switch
over the stripped application command. Returns the emitted effects and the
updated per-window state (only `find` updates it). -/
def handleApplicationAction (action : String) (st : WinState) : List Effect × WinState :=
  match action with
  | "quit" => ([Effect.appQuit], st)
  | "open-saved" | "open-history" | "open-drive" | "open-messages"
  | "show-settings" | "about" | "open-license" | "import-data"
  | "export-data" | "login-external-webservice" | "open-cookie-manager"
  | "open-hosts-editor" | "open-themes" =>
    ([Effect.send "command" action], st)
  | "new-window" => ([Effect.wmOpenNew], st)
  | "open-privacy-policy" | "open-documentation" | "open-faq"
  | "open-discussions" | "report-issue" | "search-issues"
  | "web-session-help" =>
    ([Effect.helpWith action], st)
  | "task-manager" => ([Effect.openTaskManager], st)
  | "find" =>
    if jsContains st.url "search-bar" then ([], st)
    else
      match st.srv with
      | some s =>
        if s.opened then ([Effect.srvFocus], st)
        else ([Effect.srvOpen], { st with srv := some ⟨true⟩ })
      | none => ([Effect.srvNew, Effect.srvOpen], { st with srv := some ⟨true⟩ })
  | _ => ([], st)

/-- `Arc._menuHandler` (src/main.js lines 124-131): if
`action.indexOf('application') === 0`, dispatch `action.substr(12)` through
the application switch; else if `action.indexOf('request') === 0`, send
`action.substr(8)` to the window as a `request-action` event; otherwise do
nothing. -/
def menuHandler (action : String) (st : WinState) : List Effect × WinState :=
  if jsStarts action "application" then
    handleApplicationAction (jsSubstr action 12) st
  else if jsStarts action "request" then
    ([Effect.send "request-action" (jsSubstr action 8)], st)
  else ([], st)

/-- The thirteen application commands the switch forwards verbatim to the
window as a `command` event. -/
def forwardedCommands : List String :=
  ["open-saved", "open-history", "open-drive", "open-messages",
   "show-settings", "about", "open-license", "import-data", "export-data",
   "login-external-webservice", "open-cookie-manager", "open-hosts-editor",
   "open-themes"]

/-- Every command name with a case in the `Arc._handleApplicationAction`
switch. -/
def appCommands : List String :=
  "quit" :: "new-window" :: "task-manager" :: "find" ::
    "open-privacy-policy" :: "open-documentation" :: "open-faq" ::
    "open-discussions" :: "report-issue" :: "search-issues" ::
    "web-session-help" :: forwardedCommands

/-- The namespace of an action identifier as the spec's glossary defines
it: the substring before the first segment marker `-`. -/
def specNamespace (s : String) : String := (jsSplit s '-').headD ""

/-- A JS `Error` object as observed by `Arc._readyHandler`: only its
`message` field is read separately from the object itself. -/
structure JsError where
  message : String
deriving DecidableEq

/-- Observable events of the lifecycle ready sequence
(`Arc._readyHandler`) and of module initialization. `dialog` is an event
the embedded code never emits; it stands for any user-facing dialog. -/
inductive REvent
  | prepareEnv
  | logErrMsg (m : String)
  | logErrObj (e : JsError)
  | logInfoMsg (m : String)
  | identityListen
  | wmListen
  | promptsListen
  | usListen
  | gdriveListen
  | wmOpenInitial
  | usStart
  | menuBuild
  | smStart
  | dialog
  | registerProtocolClient
  | listenMenu
  | attachAppListeners
  | testInterfaceInit
  | globalExpose
deriving DecidableEq

/-- `Arc._readyHandler` (src/main.js lines 72-93): awaits
`prepareEnvironment()` (outcome `envFailure`; on rejection two `log.error`
entries are written), then runs the `.then` block: `log.info`, the five
`listen()` calls, `wm.open()`, `us.start()` unless `isDebug()`, then
`menu.build()` and `sm.start()`. -/
def readyTrace (envFailure : Option JsError) (debug : Bool) : List REvent :=
  [REvent.prepareEnv] ++
    (match envFailure with
     | some e => [REvent.logErrMsg e.message, REvent.logErrObj e]
     | none => []) ++
    [REvent.logInfoMsg "Application is now ready",
     REvent.identityListen, REvent.wmListen, REvent.promptsListen,
     REvent.usListen, REvent.gdriveListen, REvent.wmOpenInitial] ++
    (if debug then [] else [REvent.usStart]) ++
    [REvent.menuBuild, REvent.smStart]

/-- Module-level initialization of src/main.js (lines 202-213): the `Arc`
constructor registers the protocol handler and the menu listener,
`attachListeners()` wires the lifecycle handlers, then the test interface
is installed when `NODE_ENV === 'test'`, and the instance is exposed as
`global.arcApp` when `isDebug()`. -/
def moduleInit (debug testEnv : Bool) : List REvent :=
  [REvent.registerProtocolClient, REvent.listenMenu, REvent.attachAppListeners] ++
    (if testEnv then [REvent.testInterfaceInit] else []) ++
    (if debug then [REvent.globalExpose] else [])

/-- Payload-free event kinds, used to state ordering facts about the ready
sequence uniformly in the logged error. -/
inductive RKind
  | prepareEnv
  | logErr
  | logInfo
  | identityListen
  | wmListen
  | promptsListen
  | usListen
  | gdriveListen
  | wmOpenInitial
  | usStart
  | menuBuild
  | smStart
  | dialog
  | moduleStep
deriving DecidableEq

/-- The kind of a ready-sequence event. -/
def evKind : REvent → RKind
  | REvent.prepareEnv => RKind.prepareEnv
  | REvent.logErrMsg _ => RKind.logErr
  | REvent.logErrObj _ => RKind.logErr
  | REvent.logInfoMsg _ => RKind.logInfo
  | REvent.identityListen => RKind.identityListen
  | REvent.wmListen => RKind.wmListen
  | REvent.promptsListen => RKind.promptsListen
  | REvent.usListen => RKind.usListen
  | REvent.gdriveListen => RKind.gdriveListen
  | REvent.wmOpenInitial => RKind.wmOpenInitial
  | REvent.usStart => RKind.usStart
  | REvent.menuBuild => RKind.menuBuild
  | REvent.smStart => RKind.smStart
  | REvent.dialog => RKind.dialog
  | _ => RKind.moduleStep

/-- The ready trace with payloads erased. -/
def kindTrace (envFailure : Option JsError) (debug : Bool) : List RKind :=
  (readyTrace envFailure debug).map evKind

/-- `a` and `b` both occur in `t` and the first occurrence of `a` is
strictly before the first occurrence of `b`. -/
def occursBefore (t : List RKind) (a b : RKind) : Prop :=
  a ∈ t ∧ b ∈ t ∧ t.indexOf a < t.indexOf b

instance (t : List RKind) (a b : RKind) : Decidable (occursBefore t a b) :=
  decidable_of_iff (a ∈ t ∧ b ∈ t ∧ t.indexOf a < t.indexOf b) Iff.rfl

example : openUrlHandler "arc-file://drive/open/abc123" =
    [PEvent.logInfoUrl "arc-file://drive/open/abc123", PEvent.preventDefault,
     PEvent.wmOpenPath "/request/drive/open/abc123"] := by decide

example : openUrlHandler "arc-file://unknown/x/y" =
    [PEvent.logInfoUrl "arc-file://unknown/x/y", PEvent.preventDefault] := by decide

example : openUrlHandler "arc-file://drive/open" =
    [PEvent.logInfoUrl "arc-file://drive/open", PEvent.preventDefault,
     PEvent.wmOpenPath "/request/drive/open/undefined"] := by decide

example : menuHandler "application-quit" ⟨"p", none⟩ = ([Effect.appQuit], ⟨"p", none⟩) := by decide

example : menuHandler "application-open-saved" ⟨"p", none⟩ =
    ([Effect.send "command" "open-saved"], ⟨"p", none⟩) := by decide

example : menuHandler "request-save-file" ⟨"p", none⟩ =
    ([Effect.send "request-action" "save-file"], ⟨"p", none⟩) := by decide

example : menuHandler "applicationXquit" ⟨"p", none⟩ = ([Effect.appQuit], ⟨"p", none⟩) := by decide

example : menuHandler "application" ⟨"p", none⟩ = ([], ⟨"p", none⟩) := by decide

example : menuHandler "application-find" ⟨"p", none⟩ =
    ([Effect.srvNew, Effect.srvOpen], ⟨"p", some ⟨true⟩⟩) := by decide

example : menuHandler "application-find" ⟨"p", some ⟨true⟩⟩ =
    ([Effect.srvFocus], ⟨"p", some ⟨true⟩⟩) := by decide

example : menuHandler "application-find" ⟨"app/search-bar.html", some ⟨false⟩⟩ =
    ([], ⟨"app/search-bar.html", some ⟨false⟩⟩) := by decide

example : kindTrace none false =
    [RKind.prepareEnv, RKind.logInfo, RKind.identityListen, RKind.wmListen,
     RKind.promptsListen, RKind.usListen, RKind.gdriveListen, RKind.wmOpenInitial,
     RKind.usStart, RKind.menuBuild, RKind.smStart] := by decide

example : ∀ e : JsError, kindTrace (some e) true =
    [RKind.prepareEnv, RKind.logErr, RKind.logErr, RKind.logInfo,
     RKind.identityListen, RKind.wmListen, RKind.promptsListen, RKind.usListen,
     RKind.gdriveListen, RKind.wmOpenInitial, RKind.menuBuild, RKind.smStart] := by
  intro e
  rfl

/-- C1: in the ready handler, `prepareEnvironment` precedes every
collaborator `listen()` call; every `listen()` call (identity, window
manager, prompts, update status, drive export) precedes the menu `build()`;
and `build()` strictly precedes the session manager's `start()` — whatever
the environment-preparation outcome and the debug flag. -/
theorem arc_ready_order (envFailure : Option JsError) (debug : Bool) :
    occursBefore (kindTrace envFailure debug) RKind.prepareEnv RKind.identityListen ∧
    occursBefore (kindTrace envFailure debug) RKind.prepareEnv RKind.wmListen ∧
    occursBefore (kindTrace envFailure debug) RKind.prepareEnv RKind.promptsListen ∧
    occursBefore (kindTrace envFailure debug) RKind.prepareEnv RKind.usListen ∧
    occursBefore (kindTrace envFailure debug) RKind.prepareEnv RKind.gdriveListen ∧
    occursBefore (kindTrace envFailure debug) RKind.identityListen RKind.menuBuild ∧
    occursBefore (kindTrace envFailure debug) RKind.wmListen RKind.menuBuild ∧
    occursBefore (kindTrace envFailure debug) RKind.promptsListen RKind.menuBuild ∧
    occursBefore (kindTrace envFailure debug) RKind.usListen RKind.menuBuild ∧
    occursBefore (kindTrace envFailure debug) RKind.gdriveListen RKind.menuBuild ∧
    occursBefore (kindTrace envFailure debug) RKind.menuBuild RKind.smStart := by
  rcases envFailure with _ | e
  · cases debug <;> decide
  · have h0 : kindTrace (some e) false =
        [RKind.prepareEnv, RKind.logErr, RKind.logErr, RKind.logInfo,
         RKind.identityListen, RKind.wmListen, RKind.promptsListen, RKind.usListen,
         RKind.gdriveListen, RKind.wmOpenInitial, RKind.usStart, RKind.menuBuild,
         RKind.smStart] := rfl
    have h1 : kindTrace (some e) true =
        [RKind.prepareEnv, RKind.logErr, RKind.logErr, RKind.logInfo,
         RKind.identityListen, RKind.wmListen, RKind.promptsListen, RKind.usListen,
         RKind.gdriveListen, RKind.wmOpenInitial, RKind.menuBuild, RKind.smStart] := rfl
    cases debug
    · rw [h0]
      decide
    · rw [h1]
      decide

/-- C2: when `prepareEnvironment` rejects, the handler logs the error's
message and then the error object as two separate entries, and afterwards
the run continues exactly as a successful run does after
`prepareEnvironment`; no dialog event is ever emitted. -/
theorem arc_ready_env_failure_nonfatal (e : JsError) (debug : Bool) :
    readyTrace (some e) debug =
      REvent.prepareEnv :: REvent.logErrMsg e.message :: REvent.logErrObj e ::
        (readyTrace none debug).tail ∧
    (readyTrace none debug).head? = some REvent.prepareEnv ∧
    REvent.dialog ∉ readyTrace (some e) debug := by
  cases debug <;> exact ⟨rfl, rfl, by simp [readyTrace]⟩

/-- C3: the open-url handler, given `arc-file://drive/open/abc123`, asks the
window manager to open exactly `/request/drive/open/abc123`; and for any URL
whose first segment after the 11-character scheme prefix is not `drive`, the
window manager's open is never called. -/
theorem arc_protocol_drive_decode :
    openUrlHandler "arc-file://drive/open/abc123" =
      [PEvent.logInfoUrl "arc-file://drive/open/abc123", PEvent.preventDefault,
       PEvent.wmOpenPath "/request/drive/open/abc123"] ∧
    ∀ url : String, (jsSplit (jsSubstr url 11) '/').headD "" ≠ "drive" →
      ∀ p : String, PEvent.wmOpenPath p ∉ openUrlHandler url := by
  constructor
  · decide
  · intro url h p
    unfold openUrlHandler
    rw [if_neg h]
    simp

/-- Witness for C3 at the concrete non-drive URL `arc-file://unknown/x/y`. -/
theorem arc_protocol_drive_decode_w :
    ((jsSplit (jsSubstr "arc-file://unknown/x/y" 11) '/').headD "" ≠ "drive") ∧
    PEvent.wmOpenPath "/request/drive/x/y" ∉ openUrlHandler "arc-file://unknown/x/y" :=
  ⟨by decide,
   arc_protocol_drive_decode.2 "arc-file://unknown/x/y" (by decide) "/request/drive/x/y"⟩

/-- C4: every URL delivered to the open-url handler leads to exactly one
`event.preventDefault()` call, well-formed or not. -/
theorem arc_protocol_preventDefault_once (url : String) :
    (openUrlHandler url).count PEvent.preventDefault = 1 := by
  unfold openUrlHandler
  by_cases hc : (jsSplit (jsSubstr url 11) '/').headD "" = "drive"
  · rw [if_pos hc]
    simp [List.count_cons, List.count_append]
  · rw [if_neg hc]
    simp [List.count_cons, List.count_append]

/-- C5: on a `drive` URL with fewer than three slash-separated segments
after the scheme prefix, the handler is total and deterministic: it still
constructs a navigation target (its missing segment rendered as JS renders
`undefined`) and passes it to the window manager. -/
theorem arc_protocol_malformed_total (url : String)
    (h1 : (jsSplit (jsSubstr url 11) '/').headD "" = "drive")
    (h2 : (jsSplit (jsSubstr url 11) '/').length < 3) :
    openUrlHandler url =
      [PEvent.logInfoUrl url, PEvent.preventDefault,
       PEvent.wmOpenPath ("/request/drive/" ++
         jsStr ((jsSplit (jsSubstr url 11) '/').get? 1) ++ "/" ++ "undefined")] := by
  have hg : (jsSplit (jsSubstr url 11) '/').get? 2 = none :=
    List.get?_eq_none.mpr (by omega)
  unfold openUrlHandler
  rw [if_pos h1, hg]
  rfl

/-- Witness for C5 at the concrete two-segment URL `arc-file://drive/open`. -/
theorem arc_protocol_malformed_total_w :
    ((jsSplit (jsSubstr "arc-file://drive/open" 11) '/').headD "" = "drive") ∧
    ((jsSplit (jsSubstr "arc-file://drive/open" 11) '/').length < 3) ∧
    openUrlHandler "arc-file://drive/open" =
      [PEvent.logInfoUrl "arc-file://drive/open", PEvent.preventDefault,
       PEvent.wmOpenPath ("/request/drive/" ++
         jsStr ((jsSplit (jsSubstr "arc-file://drive/open" 11) '/').get? 1) ++
           "/" ++ "undefined")] :=
  ⟨by decide, by decide, arc_protocol_malformed_total _ (by decide) (by decide)⟩

/-- C6: each of the thirteen forwarded application commands, routed as
`application-<command>`, sends exactly one window-scoped `command` event
whose payload is the command name, touches no collaborator and leaves the
window state unchanged. -/
theorem arc_forwarded_one_command_event (c : String) (hc : c ∈ forwardedCommands)
    (st : WinState) :
    menuHandler ("application-" ++ c) st = ([Effect.send "command" c], st) := by
  fin_cases hc <;> rfl

/-- Witness for C6 at the concrete command `about`. -/
theorem arc_forwarded_one_command_event_w :
    ("about" ∈ forwardedCommands) ∧
    menuHandler ("application-" ++ "about") ⟨"p", none⟩ =
      ([Effect.send "command" "about"], ⟨"p", none⟩) :=
  ⟨by decide, arc_forwarded_one_command_event "about" (by decide) ⟨"p", none⟩⟩

/-- C7 counterexample: `requestfoo-x` has namespace `requestfoo` — neither
`application` nor `request` — yet routing it sends a `request-action` event
to the window: an observable side effect. -/
theorem arc_route_foreign_namespace_effect :
    specNamespace "requestfoo-x" ≠ "application" ∧
    specNamespace "requestfoo-x" ≠ "request" ∧
    menuHandler "requestfoo-x" ⟨"p", none⟩ =
      ([Effect.send "request-action" "oo-x"], ⟨"p", none⟩) ∧
    ([Effect.send "request-action" "oo-x"] : List Effect) ≠ [] := by decide

/-- A command name outside the switch's cases produces no effect and leaves
the window state unchanged. -/
theorem handleApplicationAction_not_mem (cmd : String) (st : WinState)
    (h : cmd ∉ appCommands) : handleApplicationAction cmd st = ([], st) := by
  unfold handleApplicationAction
  split
  all_goals first
    | rfl
    | exact absurd (by decide) h

/-- C7 amended: an action string starting with neither `application` nor
`request`, and an action string starting with `application` whose remainder
after dropping 12 characters names no switch case, produce no effect and no
state change. -/
theorem arc_route_unknown_noop :
    (∀ (action : String) (st : WinState),
      jsStarts action "application" = false → jsStarts action "request" = false →
      menuHandler action st = ([], st)) ∧
    (∀ (action : String) (st : WinState),
      jsStarts action "application" = true → jsSubstr action 12 ∉ appCommands →
      menuHandler action st = ([], st)) := by
  constructor
  · intro action st h1 h2
    simp [menuHandler, h1, h2]
  · intro action st h1 h2
    simp only [menuHandler, h1, if_true]
    exact handleApplicationAction_not_mem _ st h2

/-- Witness for C7 (amended) at `settings-open` and
`application-frobnicate`. -/
theorem arc_route_unknown_noop_w :
    (jsStarts "settings-open" "application" = false ∧
     jsStarts "settings-open" "request" = false ∧
     menuHandler "settings-open" ⟨"p", none⟩ = ([], ⟨"p", none⟩)) ∧
    (jsStarts "application-frobnicate" "application" = true ∧
     jsSubstr "application-frobnicate" 12 ∉ appCommands ∧
     menuHandler "application-frobnicate" ⟨"p", none⟩ = ([], ⟨"p", none⟩)) :=
  ⟨⟨by decide, by decide,
    arc_route_unknown_noop.1 "settings-open" ⟨"p", none⟩ (by decide) (by decide)⟩,
   ⟨by decide, by decide,
    arc_route_unknown_noop.2 "application-frobnicate" ⟨"p", none⟩ (by decide) (by decide)⟩⟩

/-- Routing `application-find` reaches the `find` case of the switch. -/
theorem menuHandler_find (st : WinState) :
    menuHandler "application-find" st =
      if jsContains st.url "search-bar" then ([], st)
      else
        match st.srv with
        | some s =>
          if s.opened then ([Effect.srvFocus], st)
          else ([Effect.srvOpen], ⟨st.url, some ⟨true⟩⟩)
        | none => ([Effect.srvNew, Effect.srvOpen], ⟨st.url, some ⟨true⟩⟩) := rfl

/-- C8: the `find` action keeps at most one Content Search Service per
window: it is a no-op when the window shows the search UI; an existing
opened service is focused, not reopened and not recreated; and two
consecutive `find` calls on a window with no service construct exactly one
instance, the second call focusing it. -/
theorem arc_find_single_service (st : WinState) :
    (jsContains st.url "search-bar" = true →
      menuHandler "application-find" st = ([], st)) ∧
    (jsContains st.url "search-bar" = false →
      ∀ s : SearchSrv, st.srv = some s → s.opened = true →
      menuHandler "application-find" st = ([Effect.srvFocus], st)) ∧
    (jsContains st.url "search-bar" = false → st.srv = none →
      menuHandler "application-find" st =
        ([Effect.srvNew, Effect.srvOpen], ⟨st.url, some ⟨true⟩⟩) ∧
      (menuHandler "application-find" (menuHandler "application-find" st).2).1 =
        [Effect.srvFocus] ∧
      ((menuHandler "application-find" st).1 ++
        (menuHandler "application-find" (menuHandler "application-find" st).2).1).count
          Effect.srvNew = 1) := by
  refine ⟨fun h => ?_, fun h s hs ho => ?_, fun h hn => ?_⟩
  · simp [menuHandler_find, h]
  · simp [menuHandler_find, h, hs, ho]
  · have e1 : menuHandler "application-find" st =
        ([Effect.srvNew, Effect.srvOpen], ⟨st.url, some ⟨true⟩⟩) := by
      simp [menuHandler_find, h, hn]
    have e2 : menuHandler "application-find" (⟨st.url, some ⟨true⟩⟩ : WinState) =
        ([Effect.srvFocus], ⟨st.url, some ⟨true⟩⟩) := by
      simp [menuHandler_find, h]
    refine ⟨e1, ?_, ?_⟩
    · rw [e1, e2]
    · rw [e1, e2]
      rfl

/-- Witness for C8 at a window with no service and a non-search URL. -/
theorem arc_find_single_service_w :
    jsContains "p" "search-bar" = false ∧
    (menuHandler "application-find" ⟨"p", none⟩ =
       ([Effect.srvNew, Effect.srvOpen], ⟨"p", some ⟨true⟩⟩) ∧
     (menuHandler "application-find" (menuHandler "application-find" ⟨"p", none⟩).2).1 =
       [Effect.srvFocus] ∧
     ((menuHandler "application-find" ⟨"p", none⟩).1 ++
       (menuHandler "application-find" (menuHandler "application-find" ⟨"p", none⟩).2).1).count
         Effect.srvNew = 1) :=
  ⟨by decide, (arc_find_single_service ⟨"p", none⟩).2.2 (by decide) rfl⟩

/-- C9 counterexample: the module-initialization traces with and without
the inspection flag differ although neither contains an update-checker
start: the flag also gates the `global.arcApp` exposure, so it does not
gate only the update-checker auto-start. -/
theorem arc_debug_flag_cx :
    moduleInit true false ≠ moduleInit false false ∧
    REvent.usStart ∉ moduleInit true false ∧
    REvent.usStart ∉ moduleInit false false ∧
    REvent.globalExpose ∈ moduleInit true false ∧
    REvent.globalExpose ∉ moduleInit false false := by decide

/-- C9 amended: the inspection-flag check gates exactly two things — the
update-checker auto-start inside the ready sequence, and the exposure of
the application instance as a global during module initialization;
everything else in both traces is identical. -/
theorem arc_debug_flag_scope :
    (∀ envFailure : Option JsError, ∃ l1 l2 : List REvent,
      readyTrace envFailure false = l1 ++ REvent.usStart :: l2 ∧
      readyTrace envFailure true = l1 ++ l2 ∧
      REvent.usStart ∉ l1 ∧ REvent.usStart ∉ l2) ∧
    (∀ testEnv : Bool,
      moduleInit true testEnv = moduleInit false testEnv ++ [REvent.globalExpose]) := by
  constructor
  · intro envFailure
    rcases envFailure with _ | e
    · exact ⟨[REvent.prepareEnv, REvent.logInfoMsg "Application is now ready",
        REvent.identityListen, REvent.wmListen, REvent.promptsListen,
        REvent.usListen, REvent.gdriveListen, REvent.wmOpenInitial],
        [REvent.menuBuild, REvent.smStart], rfl, rfl, by decide, by decide⟩
    · exact ⟨[REvent.prepareEnv, REvent.logErrMsg e.message, REvent.logErrObj e,
        REvent.logInfoMsg "Application is now ready",
        REvent.identityListen, REvent.wmListen, REvent.promptsListen,
        REvent.usListen, REvent.gdriveListen, REvent.wmOpenInitial],
        [REvent.menuBuild, REvent.smStart], rfl, rfl, by simp, by decide⟩
  · intro testEnv
    cases testEnv <;> rfl

/-- C10 counterexample: `applicationXquit` has its first 12 characters
dropped, leaving `quit` — not `uit` as the claim's example says — so it
routes to the quit case, not to a no-op dispatch of `uit`. -/
theorem arc_menu_prefix_quirk_cx :
    jsSubstr "applicationXquit" 12 = "quit" ∧
    jsSubstr "applicationXquit" 12 ≠ "uit" ∧
    menuHandler "applicationXquit" ⟨"p", none⟩ = ([Effect.appQuit], ⟨"p", none⟩) ∧
    menuHandler "applicationXquit" ⟨"p", none⟩ ≠
      handleApplicationAction "uit" ⟨"p", none⟩ := by decide

/-- C10 amended: namespace dispatch is a bare prefix test with fixed-length
stripping and no separator check — any string beginning with `application`
has 12 characters dropped and the remainder dispatched through the switch
(the bare string `application` dispatches the empty command, a no-op, and
`applicationXquit` dispatches `quit`), and any remaining string beginning
with `request` has 8 characters dropped and the remainder forwarded
verbatim as a `request-action` event. -/
theorem arc_menu_prefix_dispatch :
    (∀ (action : String) (st : WinState), jsStarts action "application" = true →
      menuHandler action st = handleApplicationAction (jsSubstr action 12) st) ∧
    (∀ (action : String) (st : WinState), jsStarts action "application" = false →
      jsStarts action "request" = true →
      menuHandler action st = ([Effect.send "request-action" (jsSubstr action 8)], st)) ∧
    (∀ st : WinState, menuHandler "application" st = ([], st)) ∧
    (∀ st : WinState, menuHandler "applicationXquit" st = ([Effect.appQuit], st)) := by
  refine ⟨fun action st h => ?_, fun action st h1 h2 => ?_, fun st => rfl, fun st => rfl⟩
  · simp [menuHandler, h]
  · simp [menuHandler, h1, h2]

/-- Witness for C10 (amended) at `application-quit` and `requestXsave`. -/
theorem arc_menu_prefix_dispatch_w :
    (jsStarts "application-quit" "application" = true ∧
     menuHandler "application-quit" ⟨"p", none⟩ =
       handleApplicationAction (jsSubstr "application-quit" 12) ⟨"p", none⟩) ∧
    (jsStarts "requestXsave" "application" = false ∧
     jsStarts "requestXsave" "request" = true ∧
     menuHandler "requestXsave" ⟨"p", none⟩ =
       ([Effect.send "request-action" (jsSubstr "requestXsave" 8)], ⟨"p", none⟩)) :=
  ⟨⟨by decide, arc_menu_prefix_dispatch.1 "application-quit" ⟨"p", none⟩ (by decide)⟩,
   ⟨by decide, by decide,
    arc_menu_prefix_dispatch.2.1 "requestXsave" ⟨"p", none⟩ (by decide) (by decide)⟩⟩
